import Mathlib

/-!
Verification development for the `contracts` Django app (equipment-rental
contract pipeline).  The definitions below are a shallow embedding of the
Python source files under `contracts/`:

  - `models.py`         : the `Contract` model and its concrete fields
  - `views.py`          : `generate_contract`, `sign_contract`,
                          `fetch_signing_url`, `docusign_webhook`,
                          `verify_docusign_request`, `parse_date`
  - `gemini_helper.py`  : `GeminiHelper._sanitize_profile`, `_build_prompt`,
                          `generate_contract_html`, `create_draft_contract`

Dynamic Python values (JSON payloads, external-service responses) are
modelled by `PyVal`; Python exceptions by `PyError`; fallible expressions by
`Except PyError _`.  External network calls (profile/equipment/request
fetches, the Gemini generation call, PDF rendering, the DocuSign envelope
and recipient-view APIs) are modelled as oracle parameters: each is supplied
as the outcome the external system produced, exactly as the surrounding
Python code observes it.
-/

set_option maxRecDepth 4000

namespace Contracts

/-- Model of a dynamically-typed Python/JSON value. -/
inductive PyVal where
  | none : PyVal
  | bool : Bool → PyVal
  | int : Int → PyVal
  | str : String → PyVal
  | list : List PyVal → PyVal
  | dict : List (String × PyVal) → PyVal

/-- Model of the Python exceptions that the embedded code can raise. -/
inductive PyError where
  /-- `AttributeError`; the argument is the attribute that was accessed. -/
  | attributeError : String → PyError
  /-- `TypeError` with its message. -/
  | typeError : String → PyError
  /-- `KeyError`; the argument is the missing key. -/
  | keyError : String → PyError
  /-- `IndexError` from sequence subscription. -/
  | indexError : PyError
  /-- `UnboundLocalError`; the argument is the local variable name. -/
  | unboundLocalError : String → PyError
  /-- `django.core.exceptions.FieldError` from an ORM keyword that does not
  resolve to a model field; the argument is the offending keyword. -/
  | fieldError : String → PyError
  /-- `Contract.DoesNotExist` from `Contract.objects.get` with no match. -/
  | doesNotExist : PyError
  /-- `ValueError` with its message. -/
  | valueError : String → PyError
  /-- An exception raised inside an external library call (requests,
  docusign_esign, google.generativeai, xhtml2pdf); the argument is its
  rendered message. -/
  | externalError : String → PyError

/-- Structural equality of Python values (`a == b` on JSON-like data). -/
def PyVal.beq : PyVal → PyVal → Bool
  | .none, .none => true
  | .bool a, .bool b => a == b
  | .int a, .int b => a == b
  | .str a, .str b => a == b
  | .list [], .list [] => true
  | .list (x :: xs), .list (y :: ys) => x.beq y && (PyVal.list xs).beq (.list ys)
  | .dict [], .dict [] => true
  | .dict ((k, v) :: xs), .dict ((l, w) :: ys) =>
      k == l && v.beq w && (PyVal.dict xs).beq (.dict ys)
  | _, _ => false

instance : BEq PyVal := ⟨PyVal.beq⟩

/-- `str(e)` for an exception, as used in the `details` response fields. -/
def pyErrStr : PyError → String
  | .attributeError a => "object has no attribute " ++ a
  | .typeError m => m
  | .keyError k => k
  | .indexError => "list index out of range"
  | .unboundLocalError n =>
      "cannot access local variable " ++ n ++ " where it is not associated with a value"
  | .fieldError f => "Cannot resolve keyword " ++ f ++ " into field"
  | .doesNotExist => "Contract matching query does not exist."
  | .valueError m => m
  | .externalError m => m

/-- Python truthiness (`bool(v)`). -/
def pyTruthy : PyVal → Bool
  | .none => false
  | .bool b => b
  | .int n => !(n == 0)
  | .str s => !(s == "")
  | .list xs => !xs.isEmpty
  | .dict kvs => !kvs.isEmpty

/-- Lookup in a Python dict (first binding wins, as dict keys are unique). -/
def dictLookup (kvs : List (String × PyVal)) (k : String) : Option PyVal :=
  match kvs.find? (fun p => p.1 == k) with
  | some p => some p.2
  | Option.none => Option.none

/-- `v.get(k)`: defined on dicts (default `None`); any other receiver has no
`get` attribute and raises `AttributeError` (in particular `None.get(...)`). -/
def pyGet (v : PyVal) (k : String) : Except PyError PyVal :=
  match v with
  | .dict kvs => .ok ((dictLookup kvs k).getD .none)
  | _ => .error (.attributeError "get")

/-- `v.get(k, d)` with an explicit default. -/
def pyGetD (v : PyVal) (k : String) (d : PyVal) : Except PyError PyVal :=
  match v with
  | .dict kvs => .ok ((dictLookup kvs k).getD d)
  | _ => .error (.attributeError "get")

/-- `v[k]` subscription by string key. -/
def pyIndex (v : PyVal) (k : String) : Except PyError PyVal :=
  match v with
  | .dict kvs =>
      match dictLookup kvs k with
      | some x => .ok x
      | Option.none => .error (.keyError k)
  | .none => .error (.typeError "NoneType object is not subscriptable")
  | _ => .error (.typeError "object is not subscriptable")

/-- `v[i]` subscription by integer index. -/
def pySubscriptNat (v : PyVal) (i : Nat) : Except PyError PyVal :=
  match v with
  | .list xs =>
      match xs.get? i with
      | some x => .ok x
      | Option.none => .error .indexError
  | .dict _ => .error (.keyError (toString i))
  | .none => .error (.typeError "NoneType object is not subscriptable")
  | _ => .error (.typeError "object is not subscriptable")

/-- Python `a or b` (value-returning, short-circuit on truthiness). -/
def pyOr (a b : PyVal) : PyVal :=
  if pyTruthy a then a else b

/-- `str(v)` as used when a value is interpolated into an f-string. -/
def pyToStr : PyVal → String
  | .none => "None"
  | .bool b => if b then "True" else "False"
  | .int n => toString n
  | .str s => s
  | .list _ => "[...]"
  | .dict _ => "{...}"

/-- ASCII lower-casing of one character (computable by the kernel). -/
def charLower (c : Char) : Char :=
  if 65 ≤ c.toNat && c.toNat ≤ 90 then Char.ofNat (c.toNat + 32) else c

/-- `s.lower()` on a string (the status tokens are ASCII). -/
def strLower (s : String) : String :=
  String.mk (s.data.map charLower)

/-- `s.split('T')[0]`: the characters before the first `'T'` (the whole
string when there is none). -/
def beforeT (s : String) : String :=
  String.mk (s.data.takeWhile (fun c => !(c == 'T')))

/-- `v.split('T')[0]` — defined on strings only. -/
def pySplitTHead (v : PyVal) : Except PyError PyVal :=
  match v with
  | .str s => .ok (.str (beforeT s))
  | _ => .error (.attributeError "split")

/-- `v.lower()` — defined on strings only. -/
def pyLower (v : PyVal) : Except PyError String :=
  match v with
  | .str s => .ok (strLower s)
  | _ => .error (.attributeError "lower")

/-- `k in v` for a dict receiver (the only receivers used by the views). -/
def pyHasKey (v : PyVal) (k : String) : Bool :=
  match v with
  | .dict kvs => kvs.any (fun p => p.1 == k)
  | _ => false

/-- `v[k]` where the caller has already checked `k in v` (dict access). -/
def pyIndexD (v : PyVal) (k : String) : PyVal :=
  match v with
  | .dict kvs => (dictLookup kvs k).getD .none
  | _ => .none

/-! ## The Contract record (`models.py`)

`models.py` declares the `Contract` model with fields `client_name`,
`owner_name`, `equipment`, `start_date`, `end_date`, `status`,
`total_value`, `signed_date`, `contract_text` (plus the implicit `id`
primary key).  Notably there is NO `envelope_id` field and there are no
`sent_at` / `completed_at` / `declined_at` fields, although `views.py`
assigns all four as plain instance attributes.  We therefore model two
shapes:

  - `ContractRec`: the in-memory Python instance, which carries the model
    fields plus the four transient attributes the views assign;
  - `ContractRow`: the persisted row, which carries exactly the model
    fields.  `ContractRec.toRow` is what `contract.save()` persists.
-/

/-- The names of the concrete `Contract` model fields (`models.py` lines
11-20 plus the implicit auto primary key).  Django can only persist and
query these. -/
def contractModelFields : List String :=
  ["id", "client_name", "owner_name", "equipment", "start_date", "end_date",
   "status", "total_value", "signed_date", "contract_text"]

/-- An in-memory `Contract` instance: the model fields, plus the transient
instance attributes (`envelope_id`, `sent_at`, `completed_at`,
`declined_at`) that `views.py` assigns even though they are not model
fields. -/
structure ContractRec where
  id : Nat
  client_name : PyVal
  owner_name : PyVal
  equipment : PyVal
  start_date : PyVal
  end_date : PyVal
  status : String
  total_value : PyVal
  signed_date : PyVal
  contract_text : String
  /-- Transient attribute set by `sign_contract`; not a model field. -/
  envelope_id : Option String := Option.none
  /-- Transient attribute set by the webhook handler; not a model field. -/
  sent_at : PyVal := .none
  /-- Transient attribute set by the webhook handler; not a model field. -/
  completed_at : PyVal := .none
  /-- Transient attribute set by the webhook handler; not a model field. -/
  declined_at : PyVal := .none

/-- A persisted `Contract` row: exactly the model fields. -/
structure ContractRow where
  id : Nat
  client_name : PyVal
  owner_name : PyVal
  equipment : PyVal
  start_date : PyVal
  end_date : PyVal
  status : String
  total_value : PyVal
  signed_date : PyVal
  contract_text : String

/-- What `contract.save()` writes: only the model fields.  The transient
attributes (`envelope_id` and the three event timestamps) are silently
dropped because they are not fields of the model. -/
def ContractRec.toRow (c : ContractRec) : ContractRow :=
  { id := c.id, client_name := c.client_name, owner_name := c.owner_name,
    equipment := c.equipment, start_date := c.start_date,
    end_date := c.end_date, status := c.status,
    total_value := c.total_value, signed_date := c.signed_date,
    contract_text := c.contract_text }

/-- Loading a row from the database yields an instance whose transient
attributes are unset. -/
def ContractRow.toRec (r : ContractRow) : ContractRec :=
  { id := r.id, client_name := r.client_name, owner_name := r.owner_name,
    equipment := r.equipment, start_date := r.start_date,
    end_date := r.end_date, status := r.status,
    total_value := r.total_value, signed_date := r.signed_date,
    contract_text := r.contract_text }

/-- Whether row `r` matches `field=value` for a concrete field keyword. -/
def rowFieldMatches (r : ContractRow) (field : String) (value : PyVal) : Bool :=
  match field with
  | "id" => value == .int (r.id : Int)
  | "client_name" => value == r.client_name
  | "owner_name" => value == r.owner_name
  | "equipment" => value == r.equipment
  | "start_date" => value == r.start_date
  | "end_date" => value == r.end_date
  | "status" => value == .str r.status
  | "total_value" => value == r.total_value
  | "signed_date" => value == r.signed_date
  | "contract_text" => value == .str r.contract_text
  | _ => false

/-- `Contract.objects.get(field=value)`.  A keyword that does not resolve to
a model field raises `FieldError` before any row is examined (Django query
compilation); otherwise the first matching row is returned, or
`Contract.DoesNotExist` is raised. -/
def contractObjectsGet (db : List ContractRow) (field : String) (value : PyVal) :
    Except PyError ContractRow :=
  if field ∈ contractModelFields then
    match db.find? (fun r => rowFieldMatches r field value) with
    | some r => .ok r
    | Option.none => .error .doesNotExist
  else
    .error (.fieldError field)

/-- `contract.save()` on an already-persisted instance: replace the row with
the same primary key by the instance's model fields. -/
def saveContract (db : List ContractRow) (c : ContractRec) : List ContractRow :=
  db.map (fun r => if r.id == c.id then c.toRow else r)

/-! ## The webhook reconciler (`views.py` lines 361-455)

`docusign_webhook` parses the event, looks the contract up by envelope id
and applies the status transition.  Two properties of the source are
captured exactly:

  - Inside the function the name `status` is assigned at line 387
    (`status = data.get('status')`), which makes `status` a local variable
    for the whole function body.  Every `status.HTTP_...` expression in the
    function therefore refers to that local — the event's status token, or
    an unbound name before line 387 — and never to the
    `rest_framework.status` module.  `statusAttr` models reading an
    `HTTP_...` attribute off that local.
  - The lookup `Contract.objects.get(envelope_id=envelope_id)` uses the
    keyword `envelope_id`, which is not a field of the `Contract` model.
-/

/-- An HTTP response produced with DRF's `Response(body, status=code)`. -/
structure HttpResponse where
  body : List (String × PyVal)
  code : Nat

/-- Reading `status.HTTP_<x>` inside `docusign_webhook`: `status` is the
function-local variable holding the event's status token.  Before its
assignment the local is unbound (`UnboundLocalError`); after it, the value
is `None` or the payload value, none of which has `HTTP_...` attributes
(`AttributeError`). -/
def statusAttr (statusLocal : Option PyVal) (attr : String) : Except PyError Nat :=
  match statusLocal with
  | Option.none => .error (.unboundLocalError "status")
  | some _ => .error (.attributeError attr)

/-- `verify_docusign_request` (`views.py` lines 448-455): returns `True`
unconditionally — the remainder of the function after `return True` is dead
code (a production HMAC check, commented out). -/
def verify_docusign_request (_headers : List (String × String)) : Bool :=
  true

/-- The recognized event status tokens (`views.py` lines 404, 417, 429). -/
def recognizedStatuses : List String := ["completed", "declined", "sent"]

/-- The status-dispatch chain of `docusign_webhook` (`views.py` lines
403-436), acting on the in-memory contract instance: each recognized token
unconditionally overwrites `status` and the matching timestamp attribute
(`event_time or now()`); an unrecognized token falls through with no
mutation.  `st` is the raw payload token, compared with `.lower()`. -/
def webhookApplyStatus (st : String) (event_time nw : PyVal) (c : ContractRec) :
    ContractRec :=
  if strLower st == "completed" then
    { c with status := "completed", completed_at := pyOr event_time nw }
  else if strLower st == "declined" then
    { c with status := "declined", declined_at := pyOr event_time nw }
  else if strLower st == "sent" then
    { c with status := "sent", sent_at := pyOr event_time nw }
  else
    c

/-- The body of `docusign_webhook`'s outer `try:` (`views.py` lines
368-438).  Returns the body's outcome, the database after any `save()`, and
the state of the local variable `status` when the body finished or raised
(needed by the `except` handler, which reads
`status.HTTP_500_INTERNAL_SERVER_ERROR`). -/
def webhookBody (db : List ContractRow) (headers : List (String × String))
    (data nw : PyVal) :
    Except PyError HttpResponse × List ContractRow × Option PyVal :=
  if !(verify_docusign_request headers) then
    (.ok ⟨[("error", .str "Unauthorized")], 401⟩, db, Option.none)
  else
    match pyGet data "envelopeId" with
    | .error e => (.error e, db, Option.none)
    | .ok envV =>
      if !(pyTruthy envV) then
        -- line 384: Response(..., status=status.HTTP_400_BAD_REQUEST) with
        -- the local `status` still unbound
        match statusAttr Option.none "HTTP_400_BAD_REQUEST" with
        | .error e => (.error e, db, Option.none)
        | .ok code => (.ok ⟨[("error", .str "Missing envelopeId")], code⟩, db, Option.none)
      else
        match pyGet data "status" with
        | .error e => (.error e, db, Option.none)
        | .ok stV =>
          match pyGet data "statusChangedDateTime" with
          | .error e => (.error e, db, some stV)
          | .ok event_time =>
            if !(pyTruthy stV) then
              match statusAttr (some stV) "HTTP_400_BAD_REQUEST" with
              | .error e => (.error e, db, some stV)
              | .ok code => (.ok ⟨[("error", .str "Missing status")], code⟩, db, some stV)
            else
              match contractObjectsGet db "envelope_id" envV with
              | .error .doesNotExist =>
                -- only Contract.DoesNotExist is caught by the inner except
                match statusAttr (some stV) "HTTP_404_NOT_FOUND" with
                | .error e => (.error e, db, some stV)
                | .ok code => (.ok ⟨[("error", .str "Contract not found")], code⟩, db, some stV)
              | .error e => (.error e, db, some stV)
              | .ok row =>
                match pyLower stV with
                | .error e => (.error e, db, some stV)
                | .ok low =>
                  let c := webhookApplyStatus low event_time nw row.toRec
                  let db' := if low ∈ recognizedStatuses then saveContract db c else db
                  match statusAttr (some stV) "HTTP_200_OK" with
                  | .error e => (.error e, db', some stV)
                  | .ok code =>
                    (.ok ⟨[("message", .str "Webhook processed successfully")], code⟩, db', some stV)

/-- `docusign_webhook` (`views.py` lines 361-445): the body above wrapped in
the outer `except Exception` handler, which itself evaluates
`status.HTTP_500_INTERNAL_SERVER_ERROR` on the (shadowed) local `status`.
An overall `.error` outcome is an exception escaping the view. -/
def docusign_webhook (db : List ContractRow) (headers : List (String × String))
    (data nw : PyVal) : Except PyError HttpResponse × List ContractRow :=
  match webhookBody db headers data nw with
  | (.ok resp, db', _) => (.ok resp, db')
  | (.error _, db', statusLocal) =>
    match statusAttr statusLocal "HTTP_500_INTERNAL_SERVER_ERROR" with
    | .error e2 => (.error e2, db')
    | .ok code => (.ok ⟨[("error", .str "Internal server error")], code⟩, db')

/-! ## The content generator (`gemini_helper.py`)

`GeminiHelper._build_prompt` assembles the generation prompt from the
aggregated context; `create_draft_contract` generates the document and
creates the draft `Contract` row.  The Gemini network call is the oracle
parameter `gemini : String → Except String String` (prompt in, generated
text or raised exception out). -/

/-- `GeminiHelper._sanitize_profile` (`gemini_helper.py` lines 17-21):
lists collapse to their first element (or `{}` when empty); any other
falsy value becomes `{}`.  Note: only the two profiles are sanitized —
`equipment_info` is not. -/
def _sanitize_profile (profile : PyVal) : PyVal :=
  match profile with
  | .list [] => .dict []
  | .list (x :: _) => x
  | p => if pyTruthy p then p else .dict []

/-- The date selection used identically at `gemini_helper.py` lines 31-32
and 124-125:
`request_info.get(key).split('T')[0] if request_info and request_info.get(key)
 else contract_data.get(key)`. -/
def chooseDate (request_info contract_data : PyVal) (key : String) :
    Except PyError PyVal :=
  if pyTruthy request_info then
    match pyGet request_info key with
    | .error e => .error e
    | .ok v => if pyTruthy v then pySplitTHead v else pyGet contract_data key
  else pyGet contract_data key

/-- The total selection used identically at `gemini_helper.py` lines 47 and
126: `request_info.get('total_price') if request_info else
contract_data.get("total_value")`. -/
def chooseTotal (request_info contract_data : PyVal) : Except PyError PyVal :=
  if pyTruthy request_info then pyGet request_info "total_price"
  else pyGet contract_data "total_value"

/-- A conditional request field in the prompt template:
`request_info.get(k) if request_info else <literal>`. -/
def reqField (request_info : PyVal) (k : String) (dflt : String) :
    Except PyError String :=
  if pyTruthy request_info then
    match pyGet request_info k with
    | .error e => .error e
    | .ok v => .ok (pyToStr v)
  else .ok dflt

/-- A decomposed postal-address field in the prompt template:
`p.get("address", {}).get(k, "")`. -/
def addrField (p : PyVal) (k : String) : Except PyError PyVal := do
  let a ← pyGetD p "address" (.dict [])
  pyGetD a k (.str "")

/-- `GeminiHelper._build_prompt` (`gemini_helper.py` lines 23-80).  The
profiles pass through `_sanitize_profile`; the dates through the shared
selection; every placeholder of the f-string template is evaluated in
source order.  `equipment_info` is used raw: `equipment_info.get(...)`
raises `AttributeError` when the equipment record is absent (`None`). -/
def _build_prompt (contract_data profile_owner profile_client
    equipment_info request_info : PyVal) : Except PyError String := do
  let po := _sanitize_profile profile_owner
  let pc := _sanitize_profile profile_client
  let start_date ← chooseDate request_info contract_data "start_date"
  let end_date ← chooseDate request_info contract_data "end_date"
  let reqId ← reqField request_info "id" "N/A"
  let reqStatus ← reqField request_info "status" "N/A"
  let reqQty ← reqField request_info "quantity" "N/A"
  let ownerName ← pyGet contract_data "owner_name"
  let clientName ← pyGet contract_data "client_name"
  let total ← chooseTotal request_info contract_data
  let equipId ← pyGet contract_data "equipment"
  let poFirst ← pyGetD po "first_name" (.str "")
  let poLast ← pyGetD po "last_name" (.str "")
  let poPhone ← pyGetD po "phone" (.str "")
  let poStreet ← addrField po "street"
  let poCity ← addrField po "city"
  let poState ← addrField po "state"
  let poPostal ← addrField po "postal_code"
  let poCountry ← addrField po "country"
  let pcFirst ← pyGetD pc "first_name" (.str "")
  let pcLast ← pyGetD pc "last_name" (.str "")
  let pcPhone ← pyGetD pc "phone" (.str "")
  let pcStreet ← addrField pc "street"
  let pcCity ← addrField pc "city"
  let pcState ← addrField pc "state"
  let pcPostal ← addrField pc "postal_code"
  let pcCountry ← addrField pc "country"
  let eqName ← pyGetD equipment_info "stuffname" (.str "")
  let eqBrand ← pyGetD equipment_info "brand" (.str "")
  let eqLocation ← pyGetD equipment_info "location" (.str "")
  let eqPrice ← pyGetD equipment_info "price_per_day" (.str "")
  let eqCondition ← pyGetD equipment_info "state" (.str "")
  let eqRentalLoc ← pyGetD equipment_info "rental_location" (.str "")
  let eqShortDesc ← pyGetD equipment_info "short_description" (.str "")
  let eqDetailDesc ← pyGetD equipment_info "detailed_description" (.str "")
  let qtyAgain ← reqField request_info "quantity" "1"
  let statusAgain ← reqField request_info "status" "active"
  pure
    ("\nGenerate a professional HTML equipment rental contract based on the following data:\n\n"
      ++ "Rental Request Details:\n"
      ++ "- Request ID: " ++ reqId ++ "\n"
      ++ "- Status: " ++ reqStatus ++ "\n"
      ++ "- Quantity: " ++ reqQty ++ "\n\n"
      ++ "Contract Terms:\n"
      ++ "- Owner Name: " ++ pyToStr ownerName ++ "\n"
      ++ "- Client Name: " ++ pyToStr clientName ++ "\n"
      ++ "- Start Date: " ++ pyToStr start_date ++ "\n"
      ++ "- End Date: " ++ pyToStr end_date ++ "\n"
      ++ "- Total Value: " ++ pyToStr total ++ " TND\n"
      ++ "- Equipment ID: " ++ pyToStr equipId ++ "\n\n"
      ++ "Owner Profile:\n"
      ++ "- Full Name: " ++ pyToStr poFirst ++ " " ++ pyToStr poLast ++ "\n"
      ++ "- Phone: " ++ pyToStr poPhone ++ "\n"
      ++ "- Address: " ++ pyToStr poStreet ++ ", " ++ pyToStr poCity ++ ", "
      ++ pyToStr poState ++ ", " ++ pyToStr poPostal ++ ", " ++ pyToStr poCountry ++ "\n\n"
      ++ "Client Profile:\n"
      ++ "- Full Name: " ++ pyToStr pcFirst ++ " " ++ pyToStr pcLast ++ "\n"
      ++ "- Phone: " ++ pyToStr pcPhone ++ "\n"
      ++ "- Address: " ++ pyToStr pcStreet ++ ", " ++ pyToStr pcCity ++ ", "
      ++ pyToStr pcState ++ ", " ++ pyToStr pcPostal ++ ", " ++ pyToStr pcCountry ++ "\n\n"
      ++ "Equipment Information:\n"
      ++ "- Name: " ++ pyToStr eqName ++ "\n"
      ++ "- Brand: " ++ pyToStr eqBrand ++ "\n"
      ++ "- Location: " ++ pyToStr eqLocation ++ "\n"
      ++ "- Price per day: " ++ pyToStr eqPrice ++ " TND\n"
      ++ "- Condition: " ++ pyToStr eqCondition ++ "\n"
      ++ "- Rental Location: " ++ pyToStr eqRentalLoc ++ "\n"
      ++ "- Description: " ++ pyToStr eqShortDesc ++ "\n\n"
      ++ "Detailed Description:\n" ++ pyToStr eqDetailDesc ++ "\n\n"
      ++ "Please return a well-structured HTML contract that includes:\n"
      ++ "1. Parties names and contact information\n"
      ++ "2. Equipment details including quantity (" ++ qtyAgain ++ ")\n"
      ++ "3. Rental terms including dates and total value\n"
      ++ "4. Special conditions based on request status (" ++ statusAgain ++ ")\n"
      ++ "5. Signature sections for both parties\n"
      ++ "6. Cancellation policy if status is canceled\n")

/-- `GeminiHelper.generate_contract_html` (`gemini_helper.py` lines
82-102): build the prompt, invoke the generation service once, re-raise its
failure. -/
def generate_contract_html (gemini : String → Except String String)
    (contract_data profile_owner profile_client equipment_info request_info : PyVal) :
    Except PyError String := do
  let prompt ← _build_prompt contract_data profile_owner profile_client
      equipment_info request_info
  match gemini prompt with
  | .ok t => pure t
  | .error e => .error (.externalError e)

/-- `GeminiHelper.create_draft_contract` (`gemini_helper.py` lines
104-139): generate the document, re-apply the request-over-terms date and
total selection, and create the draft row.  `contract_data["owner_name"]`
etc. are bracket accesses.  `nextId` is the primary key the record store
assigns. -/
def create_draft_contract (gemini : String → Except String String) (nextId : Nat)
    (contract_data profile_owner profile_client equipment_info request_info : PyVal) :
    Except PyError ContractRec := do
  let contract_html ← generate_contract_html gemini contract_data profile_owner
      profile_client equipment_info request_info
  let start_date ← chooseDate request_info contract_data "start_date"
  let end_date ← chooseDate request_info contract_data "end_date"
  let total_value ← chooseTotal request_info contract_data
  let own ← pyIndex contract_data "owner_name"
  let cli ← pyIndex contract_data "client_name"
  let eqp ← pyIndex contract_data "equipment"
  pure { id := nextId, client_name := cli, owner_name := own, equipment := eqp,
         start_date := start_date, end_date := end_date, status := "draft",
         total_value := pyOr total_value (.int 0), signed_date := .none,
         contract_text := contract_html }

/-! ## The generation/signing pipeline (`views.py` lines 125-337, 476-520)

External collaborators are collected in `ExtCalls`: the four best-effort
fetches are supplied as the values the surrounding code observes (the
fetch helpers catch every exception and return `None`), and the PDF
renderer / DocuSign calls as the outcome each call produced. -/

/-- The signer identity handed to the DocuSign envelope
(`Signer(email=..., name=...)`, `views.py` lines 274-280). -/
structure SignerRec where
  email : PyVal
  name : PyVal

/-- Outcomes of the external calls made by one `generate_contract` request,
as observed by the Python code. -/
structure ExtCalls where
  /-- `fetch_profile(client_id)`: parsed JSON, or `None` on any failure. -/
  profileClient : PyVal
  /-- `fetch_profile(owner_id)`: parsed JSON, or `None` on any failure. -/
  profileOwner : PyVal
  /-- The step-2 equipment result: one fetch result, or a list of them when
  `equipmentId` was a list (each element `None` on failure). -/
  equipment : PyVal
  /-- `fetch_request(request_id)`: parsed JSON, or `None` on any failure. -/
  requestInfo : PyVal
  /-- The Gemini generation call: generated text, or a raised exception. -/
  gemini : String → Except String String
  /-- `html_to_pdf_from_text(contract_text)`: PDF bytes, or a raised
  exception; applied to the contract text value. -/
  pdf : PyVal → Except String String
  /-- The DocuSign JWT token exchange plus `create_envelope`, given the
  constructed signer: the envelope id, or a raised exception. -/
  envelopeApi : SignerRec → Except String String
  /-- `create_recipient_view(envelope_id, ...)` for the given envelope id,
  signer and return URL: the signing URL, or a raised exception. -/
  urlApi : PyVal → SignerRec → PyVal → Except String String
  /-- The primary key the record store assigns to the created draft. -/
  nextId : Nat

/-- The missing-required-fields list of `sign_contract` (`views.py` lines
234-241), in source order.  The `('contract', contract)` entry is omitted:
a Django model instance is always truthy, so `contract` can never appear in
the list. -/
def signMissing (contract_text signer_email signer_name owner_name client_name : PyVal) :
    List String :=
  (if pyTruthy contract_text then [] else ["contract_text"])
    ++ (if pyTruthy signer_email then [] else ["signer_email"])
    ++ (if pyTruthy signer_name then [] else ["signer_name"])
    ++ (if pyTruthy owner_name then [] else ["owner_name"])
    ++ (if pyTruthy client_name then [] else ["client_name"])

/-- The result of `sign_contract`: the returned dict, the contract instance
afterwards, and — when the envelope submission stage was reached — the
signer identity passed to the provider. -/
structure SignOutcome where
  result : PyVal
  contract : ContractRec
  submitted : Option SignerRec

/-- `sign_contract` (`views.py` lines 230-337).  All internal exceptions
are caught by its own handler, which returns
`{"error": "Failed to send contract", "details": str(e)}`; on success the
envelope id is stored on the instance (as a transient attribute, see
`ContractRec`), the status is advanced to `sent_for_signing` and the dict
`{"message", "envelope_id", "contract_id"}` is returned. -/
def sign_contract (ext : ExtCalls) (contract : ContractRec)
    (contract_text signer_email signer_name owner_name client_name : PyVal) :
    SignOutcome :=
  let missing := signMissing contract_text signer_email signer_name owner_name client_name
  if !missing.isEmpty then
    ⟨.dict [("error", .str "Failed to send contract"),
            ("details", .str "Missing required fields")], contract, Option.none⟩
  else
    match ext.pdf contract_text with
    | .error e =>
      ⟨.dict [("error", .str "Failed to send contract"), ("details", .str e)],
       contract, Option.none⟩
    | .ok _pdf =>
      let signer : SignerRec := ⟨signer_email, signer_name⟩
      match ext.envelopeApi signer with
      | .error e =>
        ⟨.dict [("error", .str "Failed to send contract"), ("details", .str e)],
         contract, some signer⟩
      | .ok envelope_id =>
        ⟨.dict [("message", .str "Contract sent to DocuSign for signature"),
                ("envelope_id", .str envelope_id),
                ("contract_id", .int (contract.id : Int))],
         { contract with envelope_id := some envelope_id, status := "sent_for_signing" },
         some signer⟩

/-- `fetch_signing_url` (`views.py` lines 476-520): its own handler catches
every exception and returns `{"error": "Failed to retrieve signing URL",
"details": str(e)}`; on success `{"signing_url": url}`. -/
def fetch_signing_url (ext : ExtCalls)
    (envelope_id signer_email signer_name return_url : PyVal) : PyVal :=
  if !(pyTruthy envelope_id && pyTruthy signer_email && pyTruthy signer_name
        && pyTruthy return_url) then
    .dict [("error", .str "Failed to retrieve signing URL"),
           ("details", .str "Missing required fields for signing URL")]
  else
    match ext.urlApi envelope_id ⟨signer_email, signer_name⟩ return_url with
    | .error e =>
      .dict [("error", .str "Failed to retrieve signing URL"), ("details", .str e)]
    | .ok url => .dict [("signing_url", .str url)]

/-- Line 178 of `views.py`:
`signer_email = data.get("signer_email") or "kthirithamer2@gmail.com"`. -/
def signerEmailOf (data : PyVal) : Except PyError PyVal := do
  let v ← pyGet data "signer_email"
  pure (pyOr v (.str "kthirithamer2@gmail.com"))

/-- The fallback of line 179 of `views.py`:
`profile_info_client[0].get("first_name")`. -/
def signerNameFallback (profile_info_client : PyVal) : Except PyError PyVal := do
  let first ← pySubscriptNat profile_info_client 0
  pyGet first "first_name"

/-- Line 179 of `views.py`: `signer_name = data.get("signer_name") or
profile_info_client[0].get("first_name")` — the fallback is evaluated only
when the request value is falsy (short-circuit `or`). -/
def signerNameOf (data profile_info_client : PyVal) : Except PyError PyVal := do
  let v ← pyGet data "signer_name"
  if pyTruthy v then pure v else signerNameFallback profile_info_client

/-- The `contract_data` dict built at `views.py` lines 158-166 from the
request payload. -/
def contract_data_of (data : PyVal) : Except PyError PyVal := do
  let owner_id ← pyGet data "rentalId"
  let client_id ← pyGet data "clientId"
  let equipment_id ← pyGet data "equipmentId"
  let sd ← pyGet data "startDate"
  let ed ← pyGet data "endDate"
  let tp ← pyGet data "total_price"
  let st ← pyGetD data "status" (.str "")
  pure (.dict [("owner_name", owner_id), ("client_name", client_id),
               ("equipment", equipment_id), ("start_date", sd), ("end_date", ed),
               ("total_value", tp), ("details", st)])

/-- The outcome of one `generate_contract` request: the HTTP response, the
contract instance as last seen by the view (the created draft, possibly
updated by `sign_contract`), and the signer identity submitted to the
provider when submission was reached. -/
structure GenOutcome where
  response : HttpResponse
  contract : Option ContractRec
  submitted : Option SignerRec

/-- Lines 192-219 of `views.py`: the continuation after `sign_contract`
returned — branch on `"envelope_id" in sign_result`, fetch the signing URL,
and shape the response.  The signing-url-failure payload (lines 211-214)
carries only `error` and `details`. -/
def afterSign (ext : ExtCalls) (return_url signer_email signer_name : PyVal)
    (so : SignOutcome) : GenOutcome :=
  if pyHasKey so.result "envelope_id" then
    let envV := pyIndexD so.result "envelope_id"
    let url_result := fetch_signing_url ext envV signer_email signer_name return_url
    if pyHasKey url_result "signing_url" then
      ⟨⟨[("message", pyIndexD so.result "message"),
         ("envelope_id", envV),
         ("contract_id", pyIndexD so.result "contract_id"),
         ("signing_url", pyIndexD url_result "signing_url")], 200⟩,
       some so.contract, so.submitted⟩
    else
      ⟨⟨[("error", .str "Contract created but failed to generate signing URL"),
         ("details", pyIndexD url_result "details")], 500⟩,
       some so.contract, so.submitted⟩
  else
    ⟨⟨[("error", pyIndexD so.result "error"),
       ("details", pyIndexD so.result "details")], 500⟩,
     some so.contract, so.submitted⟩

/-- The body of `generate_contract`'s `try:` (`views.py` lines 129-219).
An `.error` result is an exception reaching the outer handler, paired with
the draft contract when one had already been created.  Note the argument
swap at lines 169-175: `create_draft_contract(contract_data,
profile_info_client, profile_info_owner, ...)` passes the client profile in
the `profile_owner` position and vice versa. -/
def genBody (ext : ExtCalls) (data : PyVal) :
    Except (PyError × Option ContractRec) GenOutcome :=
  match pyGet data "rentalId" with
  | .error e => .error (e, Option.none)
  | .ok owner_id =>
  match pyGet data "clientId" with
  | .error e => .error (e, Option.none)
  | .ok client_id =>
  match contract_data_of data with
  | .error e => .error (e, Option.none)
  | .ok contract_data =>
  match create_draft_contract ext.gemini ext.nextId contract_data
      ext.profileClient ext.profileOwner ext.equipment ext.requestInfo with
  | .error e => .error (e, Option.none)
  | .ok contract =>
  match signerEmailOf data with
  | .error e => .error (e, some contract)
  | .ok signer_email =>
  match signerNameOf data ext.profileClient with
  | .error e => .error (e, some contract)
  | .ok signer_name =>
  match pyGet data "return_url" with
  | .error e => .error (e, some contract)
  | .ok rv =>
  let return_url := pyOr rv (.str "http://localhost:5173/client/sign-status/")
  let so := sign_contract ext contract (.str contract.contract_text)
      signer_email signer_name owner_id client_id
  .ok (afterSign ext return_url signer_email signer_name so)

/-- `generate_contract` (`views.py` lines 125-226): the body wrapped in the
outer handler, which converts any exception into the consolidated payload
`{"error": "Internal server error", "details": str(e)}` with HTTP 500. -/
def generate_contract (ext : ExtCalls) (data : PyVal) : GenOutcome :=
  match genBody ext data with
  | .ok g => g
  | .error (e, ctr) =>
    ⟨⟨[("error", .str "Internal server error"), ("details", .str (pyErrStr e))], 500⟩,
     ctr, Option.none⟩

/-! ## Shared sample data -/

/-- A persisted contract row used by the concrete webhook scenarios. -/
def sampleRow : ContractRow :=
  { id := 1, client_name := .str "c1", owner_name := .str "o1",
    equipment := .str "eq1", start_date := .str "2025-01-01",
    end_date := .str "2025-02-01", status := "sent_for_signing",
    total_value := .int 150, signed_date := .none, contract_text := "T" }

/-- External-call outcomes for a fully successful pipeline run. -/
def extOk : ExtCalls :=
  { profileClient := .list [.dict [("first_name", .str "Amal")]],
    profileOwner := .dict [("first_name", .str "Owner")],
    equipment := .dict [("stuffname", .str "Drill")],
    requestInfo := .dict [("id", .int 42), ("status", .str "active"),
      ("quantity", .int 2), ("total_price", .str "150.00"),
      ("start_date", .str "2025-03-01T08:00:00"),
      ("end_date", .str "2025-03-05T18:00:00")],
    gemini := fun _ => .ok "<html>contract</html>",
    pdf := fun _ => .ok "PDFBYTES",
    envelopeApi := fun _ => .ok "env-1",
    urlApi := fun _ _ _ => .ok "https://sign.example/url",
    nextId := 7 }

/-- A generation request payload that omits `signer_email` and
`signer_name` (the underlying key/value list). -/
def sampleDataKvs : List (String × PyVal) :=
  [("rentalId", .str "o1"), ("clientId", .str "c1"),
   ("equipmentId", .str "eq1"), ("requestId", .int 5),
   ("startDate", .str "2025-03-01"), ("endDate", .str "2025-03-05"),
   ("total_price", .str "100.00")]

/-- A generation request payload that omits `signer_email` and
`signer_name`. -/
def sampleData : PyVal := .dict sampleDataKvs

/-- As `extOk`, but the recipient-view (signing URL) call fails. -/
def extUrlFail : ExtCalls :=
  { extOk with urlApi := fun _ _ _ => .error "SIMULATED_URL_FAILURE" }

/-- As `extOk`, but the client profile fetch failed (absent record). -/
def extNoClient : ExtCalls := { extOk with profileClient := .none }

/-! ## Helper lemmas -/

/-- Bind on a successful `Except` computation steps to the continuation. -/
theorem except_bind_ok {ε α β : Type} (a : α) (f : α → Except ε β) :
    (Except.ok a >>= f) = f a := rfl

/-- Bind on a failed `Except` computation short-circuits. -/
theorem except_bind_error {ε α β : Type} (e : ε) (f : α → Except ε β) :
    ((Except.error e : Except ε α) >>= f) = Except.error e := rfl

/-- `pure` in the `Except` monad is `Except.ok`. -/
theorem except_pure_eq_ok {ε α : Type} (a : α) :
    (pure a : Except ε α) = Except.ok a := rfl

/-- Inside `docusign_webhook` the shadowed local `status` never yields an
HTTP status code: reading any `HTTP_...` attribute off it raises. -/
theorem statusAttr_ne_ok (st : Option PyVal) (a : String) (n : Nat) :
    statusAttr st a ≠ .ok n := by
  cases st <;> simp [statusAttr]

/-- The `try:` body of `docusign_webhook` never completes with a response:
every return statement evaluates `status.HTTP_...` on the shadowed local
and raises. -/
theorem webhookBody_fst_ne_ok (db : List ContractRow)
    (headers : List (String × String)) (data nw : PyVal) (r : HttpResponse) :
    (webhookBody db headers data nw).1 ≠ .ok r := by
  unfold webhookBody
  simp only [verify_docusign_request, Bool.not_true, Bool.false_eq_true, if_false]
  repeat' split
  all_goals first | (solve | simp) | (solve | simp_all [statusAttr])

/-- `docusign_webhook` never returns a response at all: either the body
raised and the `except` handler raised again on `status.HTTP_500...`, or
the body's own `status.HTTP_...` access raised. -/
theorem docusign_webhook_fst_ne_ok (db : List ContractRow)
    (headers : List (String × String)) (data nw : PyVal) (r : HttpResponse) :
    (docusign_webhook db headers data nw).1 ≠ .ok r := by
  unfold docusign_webhook
  split
  · rename_i heq
    exact absurd (congrArg Prod.fst heq) (webhookBody_fst_ne_ok db headers data nw _)
  · split
    · simp
    · rename_i heq
      exact absurd heq (statusAttr_ne_ok _ _ _)

/-- `docusign_webhook`'s outcome is always an escaped exception. -/
theorem docusign_webhook_fst_isOk_false (db : List ContractRow)
    (headers : List (String × String)) (data nw : PyVal) :
    (docusign_webhook db headers data nw).1.isOk = false := by
  cases h : (docusign_webhook db headers data nw).1 with
  | error e => rfl
  | ok r => exact absurd h (docusign_webhook_fst_ne_ok db headers data nw r)

/-- The ORM lookup `Contract.objects.get(envelope_id=...)` always raises
`FieldError`: `envelope_id` is not a field of the `Contract` model. -/
theorem contractObjectsGet_envelope_raises (db : List ContractRow) (v : PyVal) :
    contractObjectsGet db "envelope_id" v = .error (.fieldError "envelope_id") := by
  simp +decide [contractObjectsGet, contractModelFields]

/-- The webhook's `try:` body never mutates the database: processing always
raises before the status-dispatch chain is reached, because the envelope
lookup raises `FieldError`. -/
theorem webhookBody_db_unchanged (db : List ContractRow)
    (headers : List (String × String)) (data nw : PyVal) :
    (webhookBody db headers data nw).2.1 = db := by
  unfold webhookBody
  simp only [verify_docusign_request, Bool.not_true, Bool.false_eq_true, if_false]
  repeat' split
  all_goals first
    | rfl
    | (solve | simp_all [contractObjectsGet_envelope_raises])

/-- `docusign_webhook` never mutates the database. -/
theorem docusign_webhook_db_unchanged (db : List ContractRow)
    (headers : List (String × String)) (data nw : PyVal) :
    (docusign_webhook db headers data nw).2 = db := by
  have hb := webhookBody_db_unchanged db headers data nw
  unfold docusign_webhook
  split <;> rename_i heq
  · rw [show (webhookBody db headers data nw).2.1 = _ from congrArg (fun p => p.2.1) heq] at hb
    exact hb
  · rw [show (webhookBody db headers data nw).2.1 = _ from congrArg (fun p => p.2.1) heq] at hb
    split <;> exact hb

/-! ## The claims -/

/-- C1: the spec requires the webhook reconciler to return a success
acknowledgment for every well-formed event whose envelope id resolves to a
Contract, and never to surface an internal error as a provider-facing
failure.  The code cannot do this: the local variable `status` (assigned at
line 387 of `views.py`) shadows the `rest_framework.status` module, so
every `status.HTTP_...` access raises, and the envelope lookup itself
raises `FieldError` because the model has no `envelope_id` field.  First
conjunct: no input whatsoever produces a response — the view always ends in
an escaped exception (a provider-facing 500), never the 200 acknowledgment
promised by the comment at line 437.  Second conjunct: the concrete
well-formed event `{envelopeId: "env-1", status: "completed"}` against a
database holding a contract ends in an escaped `AttributeError` raised by
the `except` handler itself, with the database untouched. -/
theorem C1_webhook_never_acknowledges :
    (∀ (db : List ContractRow) (headers : List (String × String)) (data nw : PyVal),
        (docusign_webhook db headers data nw).1.isOk = false)
    ∧ docusign_webhook [sampleRow] []
        (.dict [("envelopeId", .str "env-1"), ("status", .str "completed")]) (.str "now")
      = (.error (.attributeError "HTTP_500_INTERNAL_SERVER_ERROR"), [sampleRow]) :=
  ⟨docusign_webhook_fst_isOk_false, rfl⟩

/-- C2 counterexample: the status-dispatch chain of `docusign_webhook` has
no terminal-state guard.  Applying a `completed` event to a contract does
set its status to `completed`, but a subsequent `sent` event overwrites it
to `sent`, contradicting the claim that the final status remains
`completed`. -/
theorem C2_counterexample :
    (webhookApplyStatus "completed" .none (.str "t1") sampleRow.toRec).status = "completed"
    ∧ (webhookApplyStatus "sent" .none (.str "t2")
        (webhookApplyStatus "completed" .none (.str "t1") sampleRow.toRec)).status = "sent"
    ∧ ((webhookApplyStatus "sent" .none (.str "t2")
        (webhookApplyStatus "completed" .none (.str "t1") sampleRow.toRec)).status
          == "completed") = false := by
  refine ⟨by decide, by decide, by decide⟩

/-- C2 amended: the status-dispatch chain applies every recognized event
unconditionally (last-write-wins): after any sequence of events, the status
equals the lower-cased token of the last recognized event, so a later
`sent` event does overturn an applied `completed` or `declined`. -/
theorem C2_amended_last_write_wins (c : ContractRec) (s : String) (t nw : PyVal)
    (h : strLower s ∈ recognizedStatuses) :
    (webhookApplyStatus s t nw c).status = strLower s := by
  simp only [recognizedStatuses, List.mem_cons, List.not_mem_nil, or_false] at h
  rcases h with h | h | h <;> simp +decide [webhookApplyStatus, h]

/-- C2 amended, witness: a `sent` event applied after a `completed` one
ends with status `sent`. -/
theorem C2_amended_witness :
    (webhookApplyStatus "sent" (.str "t2") (.str "n")
      (webhookApplyStatus "completed" (.str "t1") (.str "n") sampleRow.toRec)).status
      = strLower "sent" :=
  C2_amended_last_write_wins _ "sent" _ _ (by decide)

/-- C6: the spec requires malformed events (missing envelope id or missing
status) to be rejected with an explicit client-error response and no
Contract mutated.  No mutation indeed ever happens (third conjunct), but no
400 response is returned either: for `{"status": "completed"}` the intended
`Response(..., status=status.HTTP_400_BAD_REQUEST)` reads the still-unbound
local `status` and the escaping exception is `UnboundLocalError`; for
`{"envelopeId": "env-1"}` (missing status) the 400 line reads `HTTP_400...`
off `None` and the `except` handler then raises `AttributeError` on
`HTTP_500...`.  Both malformed events therefore surface as server errors,
not client-error rejections. -/
theorem C6_malformed_raises_instead_of_400 :
    docusign_webhook [sampleRow] [] (.dict [("status", .str "completed")]) (.str "now")
      = (.error (.unboundLocalError "status"), [sampleRow])
    ∧ docusign_webhook [sampleRow] [] (.dict [("envelopeId", .str "env-1")]) (.str "now")
      = (.error (.attributeError "HTTP_500_INTERNAL_SERVER_ERROR"), [sampleRow])
    ∧ ∀ (db : List ContractRow) (headers : List (String × String)) (data nw : PyVal),
        (docusign_webhook db headers data nw).2 = db :=
  ⟨rfl, rfl, docusign_webhook_db_unchanged⟩

/-- C3 counterexample: with owner profile, client profile and rental
request all present but the equipment record absent (`None`), building the
generation prompt raises `AttributeError` (on `equipment_info.get`): the
content generator does NOT tolerate a missing equipment record, because
`_sanitize_profile` is applied only to the two profiles. -/
theorem C3_counterexample :
    _build_prompt
      (.dict [("owner_name", .str "o1"), ("client_name", .str "c1"),
              ("equipment", .str "eq1"), ("start_date", .str "2025-01-01"),
              ("end_date", .str "2025-02-01"), ("total_value", .str "100.00")])
      (.dict [("first_name", .str "Owner")])
      (.dict [("first_name", .str "Amal")])
      PyVal.none
      (.dict [("id", .int 42), ("status", .str "active"), ("quantity", .int 2)])
    = .error (.attributeError "get") := rfl

/-- C3 amended: prompt building tolerates absent owner/client profiles
(they are sanitized to the empty profile, whose fields render as empty
strings) and an absent rental request (its fields render as the template's
literal defaults), and for any contract-terms dict and any present
equipment dict it succeeds; but an absent equipment record raises (see the
counterexample). -/
theorem C3_amended_profiles_and_request_tolerated :
    (∀ (ck ek : List (String × PyVal)),
        (_build_prompt (.dict ck) PyVal.none PyVal.none (.dict ek) PyVal.none).isOk = true)
    ∧ (∀ (cd pc eq rq : PyVal),
        _build_prompt cd PyVal.none pc eq rq = _build_prompt cd (.dict []) pc eq rq)
    ∧ (∀ (cd po eq rq : PyVal),
        _build_prompt cd po PyVal.none eq rq = _build_prompt cd po (.dict []) eq rq) := by
  refine ⟨fun ck ek => ?_, fun cd pc eq rq => rfl, fun cd po eq rq => rfl⟩
  simp [_build_prompt, chooseDate, chooseTotal, reqField, addrField, pyGet, pyGetD,
        _sanitize_profile, pyTruthy, Except.isOk, Except.toBool, dictLookup,
        List.find?, except_bind_ok, except_pure_eq_ok]

/-- C4: the spec claims `envelope_id` is persisted at submission and
resolvable by the webhook reconciler.  In the code `envelope_id` is not a
field of the `Contract` model at all: `contractModelFields` does not
contain it, `contract.save()` persists an instance identically whatever its
transient `envelope_id` attribute holds, and the reconciler's lookup
`Contract.objects.get(envelope_id=...)` always raises `FieldError`, so no
webhook event can ever be matched to a Contract. -/
theorem C4_envelope_id_not_a_model_field :
    (contractModelFields.contains "envelope_id") = false
    ∧ (∀ (c : ContractRec) (e : Option String),
        ({ c with envelope_id := e } : ContractRec).toRow = c.toRow)
    ∧ (∀ (db : List ContractRow) (v : PyVal),
        contractObjectsGet db "envelope_id" v = .error (.fieldError "envelope_id")) :=
  ⟨by decide, fun c e => rfl, contractObjectsGet_envelope_raises⟩

/-- C5 counterexample: a concrete run in which envelope submission succeeds
(envelope id `env-1`) and the recipient-view call then fails.  The caller
receives the distinguishable 500 payload whose keys are exactly `error` and
`details` — it does NOT carry the already-assigned envelope id, contrary to
the claim — while the contract instance is left at `sent_for_signing` with
its envelope id. -/
theorem C5_counterexample :
    (generate_contract extUrlFail sampleData).response
      = ⟨[("error", .str "Contract created but failed to generate signing URL"),
          ("details", .str "SIMULATED_URL_FAILURE")], 500⟩
    ∧ (((generate_contract extUrlFail sampleData).response.body.map Prod.fst).contains
        "envelope_id") = false
    ∧ (generate_contract extUrlFail sampleData).contract.map
        (fun c => (c.status, c.envelope_id))
      = some ("sent_for_signing", some "env-1") :=
  ⟨rfl, rfl, rfl⟩

/-- C5 amended: if the recipient-view request fails after envelope
submission succeeded, the contract instance remains at `sent_for_signing`
with its assigned envelope id, and the caller receives an error
distinguishable from outright submission failure (the fixed string
`Contract created but failed to generate signing URL` with the failure
detail, vs `Failed to send contract`); the error payload, however, does not
include the envelope id — only the in-memory contract retains it. -/
theorem C5_amended_url_failure_leaves_contract_sent
    (ext : ExtCalls) (c : ContractRec) (ct em n o cl ru : PyVal)
    (pdfB env d : String)
    (hct : pyTruthy ct = true) (hem : pyTruthy em = true) (hn : pyTruthy n = true)
    (ho : pyTruthy o = true) (hcl : pyTruthy cl = true) (hru : pyTruthy ru = true)
    (hpdf : ext.pdf ct = .ok pdfB)
    (henv : ext.envelopeApi ⟨em, n⟩ = .ok env)
    (henvT : (env == "") = false)
    (hurl : ext.urlApi (.str env) ⟨em, n⟩ ru = .error d) :
    (sign_contract ext c ct em n o cl).contract.status = "sent_for_signing"
    ∧ (sign_contract ext c ct em n o cl).contract.envelope_id = some env
    ∧ afterSign ext ru em n (sign_contract ext c ct em n o cl)
      = ⟨⟨[("error", .str "Contract created but failed to generate signing URL"),
           ("details", .str d)], 500⟩,
         some (sign_contract ext c ct em n o cl).contract, some ⟨em, n⟩⟩
    ∧ ("Contract created but failed to generate signing URL"
        == "Failed to send contract") = false := by
  have hsign : sign_contract ext c ct em n o cl =
      ⟨.dict [("message", .str "Contract sent to DocuSign for signature"),
              ("envelope_id", .str env), ("contract_id", .int (c.id : Int))],
       { c with envelope_id := some env, status := "sent_for_signing" },
       some ⟨em, n⟩⟩ := by
    simp [sign_contract, signMissing, hct, hem, hn, ho, hcl, hpdf, henv]
  refine ⟨by rw [hsign], by rw [hsign], ?_, by decide⟩
  have henvP : pyTruthy (.str env) = true := by simp [pyTruthy, henvT]
  rw [hsign]
  simp [afterSign, fetch_signing_url, pyHasKey, pyIndexD, dictLookup, List.find?,
    henvP, hem, hn, hru, hurl]

/-- C5 amended, witness: the amended theorem at the concrete
url-failing run. -/
theorem C5_amended_witness :
    (sign_contract extUrlFail sampleRow.toRec (.str "T") (.str "e@x") (.str "N")
        (.str "o1") (.str "c1")).contract.status = "sent_for_signing"
    ∧ (sign_contract extUrlFail sampleRow.toRec (.str "T") (.str "e@x") (.str "N")
        (.str "o1") (.str "c1")).contract.envelope_id = some "env-1"
    ∧ afterSign extUrlFail (.str "http://r") (.str "e@x") (.str "N")
        (sign_contract extUrlFail sampleRow.toRec (.str "T") (.str "e@x") (.str "N")
          (.str "o1") (.str "c1"))
      = ⟨⟨[("error", .str "Contract created but failed to generate signing URL"),
           ("details", .str "SIMULATED_URL_FAILURE")], 500⟩,
         some (sign_contract extUrlFail sampleRow.toRec (.str "T") (.str "e@x") (.str "N")
           (.str "o1") (.str "c1")).contract, some ⟨.str "e@x", .str "N"⟩⟩
    ∧ ("Contract created but failed to generate signing URL"
        == "Failed to send contract") = false :=
  C5_amended_url_failure_leaves_contract_sent extUrlFail sampleRow.toRec
    (.str "T") (.str "e@x") (.str "N") (.str "o1") (.str "c1") (.str "http://r")
    "PDFBYTES" "env-1" "SIMULATED_URL_FAILURE"
    (by decide) (by decide) (by decide) (by decide) (by decide) (by decide)
    rfl rfl (by decide) rfl

/-- C7: when the rental-request record supplies `start_date`, `end_date`
and `total_price`, those values take precedence over the contract-terms
dict regardless of its contents, request-level dates are truncated at the
`T` separator to their date portion (`beforeT`), and the created draft
Contract stores exactly the truncated request dates and request total.
This covers both uses of the shared selection: the prompt builder
(`gemini_helper.py` lines 31-32, 47) and `create_draft_contract` (lines
124-126). -/
theorem C7_request_values_truncated_and_precede
    (gemini : String → Except String String) (nid : Nat)
    (ck rk : List (String × PyVal)) (po pc eqv : PyVal)
    (s t : String) (tv : PyVal) (c : ContractRec)
    (h1 : dictLookup rk "start_date" = some (.str s)) (h1T : (s == "") = false)
    (h2 : dictLookup rk "end_date" = some (.str t)) (h2T : (t == "") = false)
    (h3 : dictLookup rk "total_price" = some tv) (h3T : pyTruthy tv = true)
    (h4 : create_draft_contract gemini nid (.dict ck) po pc eqv (.dict rk) = .ok c) :
    chooseDate (.dict rk) (.dict ck) "start_date" = .ok (.str (beforeT s))
    ∧ chooseTotal (.dict rk) (.dict ck) = .ok tv
    ∧ c.start_date = .str (beforeT s)
    ∧ c.end_date = .str (beforeT t)
    ∧ c.total_value = tv := by
  have htr : pyTruthy (.dict rk) = true := by
    cases rk with
    | nil => simp [dictLookup] at h1
    | cons a l => simp [pyTruthy]
  have hsT : pyTruthy (.str s) = true := by simp [pyTruthy, h1T]
  have htT : pyTruthy (.str t) = true := by simp [pyTruthy, h2T]
  have hcd1 : chooseDate (.dict rk) (.dict ck) "start_date" = .ok (.str (beforeT s)) := by
    simp [chooseDate, htr, pyGet, h1, hsT, pySplitTHead]
  have hcd2 : chooseDate (.dict rk) (.dict ck) "end_date" = .ok (.str (beforeT t)) := by
    simp [chooseDate, htr, pyGet, h2, htT, pySplitTHead]
  have hct : chooseTotal (.dict rk) (.dict ck) = .ok tv := by
    simp [chooseTotal, htr, pyGet, h3]
  refine ⟨hcd1, hct, ?_⟩
  unfold create_draft_contract generate_contract_html at h4
  cases hp : _build_prompt (.dict ck) po pc eqv (.dict rk) with
  | error e => rw [hp] at h4; simp [except_bind_error] at h4
  | ok p =>
    rw [hp] at h4
    cases hg : gemini p with
    | error ge =>
      simp only [except_bind_ok, hg, except_bind_error] at h4
      exact absurd h4 (by simp)
    | ok g =>
      simp only [except_bind_ok, hg, except_pure_eq_ok, hcd1, hcd2, hct] at h4
      cases ho1 : pyIndex (.dict ck) "owner_name" with
      | error e => rw [ho1] at h4; simp [except_bind_error] at h4
      | ok own =>
        rw [ho1] at h4
        cases ho2 : pyIndex (.dict ck) "client_name" with
        | error e =>
          simp only [except_bind_ok, ho2, except_bind_error] at h4
          exact Except.noConfusion h4
        | ok cli =>
          cases ho3 : pyIndex (.dict ck) "equipment" with
          | error e =>
            simp only [except_bind_ok, ho2, ho3, except_bind_error] at h4
            exact Except.noConfusion h4
          | ok eqp =>
            simp only [except_bind_ok, ho2, ho3, except_pure_eq_ok,
              Except.ok.injEq] at h4
            subst h4
            exact ⟨rfl, rfl, by simp [pyOr, h3T]⟩

/-- Witness data for C7: the contract-terms dict of the concrete run. -/
def ckW : List (String × PyVal) :=
  [("owner_name", .str "o1"), ("client_name", .str "c1"),
   ("equipment", .str "eq1"), ("start_date", .str "2025-01-01"),
   ("end_date", .str "2025-02-01"), ("total_value", .str "100.00")]

/-- Witness data for C7: the rental-request dict, with date-time stamps and
a total that differ from the contract-terms values. -/
def rkW : List (String × PyVal) :=
  [("start_date", .str "2025-03-01T08:00"), ("end_date", .str "2025-03-05T20:00"),
   ("total_price", .str "150.00")]

/-- Witness data for C7: the draft created from `ckW`/`rkW`. -/
def cDraftW : ContractRec :=
  { id := 3, client_name := .str "c1", owner_name := .str "o1",
    equipment := .str "eq1", start_date := .str "2025-03-01",
    end_date := .str "2025-03-05", status := "draft",
    total_value := .str "150.00", signed_date := .none, contract_text := "H" }

/-- C7 witness: the concrete draft run keeps the truncated request dates
and the request total. -/
theorem C7_witness :
    chooseDate (.dict rkW) (.dict ckW) "start_date"
      = .ok (.str (beforeT "2025-03-01T08:00"))
    ∧ chooseTotal (.dict rkW) (.dict ckW) = .ok (.str "150.00")
    ∧ cDraftW.start_date = .str (beforeT "2025-03-01T08:00")
    ∧ cDraftW.end_date = .str (beforeT "2025-03-05T20:00")
    ∧ cDraftW.total_value = .str "150.00" :=
  C7_request_values_truncated_and_precede (fun _ => .ok "H") 3 ckW rkW
    PyVal.none PyVal.none (.dict []) "2025-03-01T08:00" "2025-03-05T20:00"
    (.str "150.00") cDraftW rfl (by decide) rfl (by decide) rfl (by decide) rfl

/-- C9: when the generation request omits `signer_email`, line 178 of
`views.py` substitutes the hard-coded address, the substituted value can
never appear in `sign_contract`'s missing-fields list, and a concrete run
without `signer_email` proceeds to submit the envelope with the default
address as the signer and succeeds. -/
theorem C9_default_signer_email :
    (∀ (dk : List (String × PyVal)),
        pyTruthy ((dictLookup dk "signer_email").getD PyVal.none) = false →
        signerEmailOf (.dict dk) = .ok (.str "kthirithamer2@gmail.com"))
    ∧ (∀ (ct n o cl : PyVal),
        ((signMissing ct (.str "kthirithamer2@gmail.com") n o cl).contains
          "signer_email") = false)
    ∧ pyHasKey sampleData "signer_email" = false
    ∧ (generate_contract extOk sampleData).submitted
        = some ⟨.str "kthirithamer2@gmail.com", .str "Amal"⟩
    ∧ (generate_contract extOk sampleData).response.code = 200 := by
  refine ⟨fun dk h => ?_, fun ct n o cl => ?_, rfl, rfl, rfl⟩
  · simp [signerEmailOf, pyGet, pyOr, h, except_bind_ok, except_pure_eq_ok]
  · cases hct : pyTruthy ct <;> cases hn : pyTruthy n <;> cases ho : pyTruthy o
      <;> cases hcl : pyTruthy cl
      <;> simp +decide [signMissing, hct, hn, ho, hcl]

/-- C9 witness: a payload without a `signer_email` key resolves to the
hard-coded default address. -/
theorem C9_witness :
    signerEmailOf (.dict [("rentalId", .str "o1")])
      = .ok (.str "kthirithamer2@gmail.com") :=
  C9_default_signer_email.1 [("rentalId", .str "o1")] (by decide)

/-- Witness data for C10: the `contract_data` dict built from
`sampleData`. -/
def cdW10 : PyVal :=
  .dict [("owner_name", .str "o1"), ("client_name", .str "c1"),
    ("equipment", .str "eq1"), ("start_date", .str "2025-03-01"),
    ("end_date", .str "2025-03-05"), ("total_value", .str "100.00"),
    ("details", .str "")]

/-- Witness data for C10: the draft created before the fatal fallback. -/
def cW10 : ContractRec :=
  { id := 7, client_name := .str "c1", owner_name := .str "o1",
    equipment := .str "eq1", start_date := .str "2025-03-01",
    end_date := .str "2025-03-05", status := "draft",
    total_value := .str "150.00", signed_date := .none,
    contract_text := "<html>contract</html>" }

/-- C10: when the request omits `signer_name` and the client profile fetch
returned `None`, the fallback `profile_info_client[0]` raises `TypeError`
(first conjunct), and — whenever the run got as far as creating the draft —
`generate_contract` returns the consolidated internal-error payload with
that `TypeError` detail, no envelope ever being submitted, even though the
draft itself was created fine (aggregation and document generation tolerate
the missing client profile). -/
theorem C10_missing_client_profile_fatal :
    signerNameFallback PyVal.none
      = .error (.typeError "NoneType object is not subscriptable")
    ∧ (∀ (ext : ExtCalls) (dk : List (String × PyVal)) (cd : PyVal) (c : ContractRec),
        pyTruthy ((dictLookup dk "signer_name").getD PyVal.none) = false →
        ext.profileClient = PyVal.none →
        contract_data_of (.dict dk) = .ok cd →
        create_draft_contract ext.gemini ext.nextId cd ext.profileClient
            ext.profileOwner ext.equipment ext.requestInfo = .ok c →
        generate_contract ext (.dict dk)
          = ⟨⟨[("error", .str "Internal server error"),
               ("details", .str "NoneType object is not subscriptable")], 500⟩,
             some c, Option.none⟩) := by
  refine ⟨rfl, fun ext dk cd c h1 h2 h3 h4 => ?_⟩
  have hname : signerNameOf (.dict dk) ext.profileClient
      = .error (.typeError "NoneType object is not subscriptable") := by
    rw [h2]
    simp [signerNameOf, pyGet, h1, signerNameFallback, pySubscriptNat,
      except_bind_ok, except_pure_eq_ok, except_bind_error]
  simp [generate_contract, genBody, pyGet, h3, h4, signerEmailOf, hname,
    except_bind_ok, except_pure_eq_ok, pyErrStr]

/-- C10 witness: the claim's concrete scenario — `sampleData` (no
`signer_name`) with an absent client profile yields the internal-error
payload after the draft was created, with nothing submitted. -/
theorem C10_witness :
    generate_contract extNoClient sampleData
      = ⟨⟨[("error", .str "Internal server error"),
           ("details", .str "NoneType object is not subscriptable")], 500⟩,
         some cW10, Option.none⟩ :=
  C10_missing_client_profile_fatal.2 extNoClient sampleDataKvs cdW10 cW10
    (by decide) rfl rfl rfl

/-- C8: `verify_docusign_request` returns `True` for every request, the
webhook handler's behaviour does not depend on the request headers at all,
and the `401 Unauthorized` rejection branch is unreachable (the handler
never returns any `.ok` response, in particular not the Unauthorized one). -/
theorem C8_verification_always_passes :
    (∀ (headers : List (String × String)), verify_docusign_request headers = true)
    ∧ (∀ (db : List ContractRow) (h1 h2 : List (String × String)) (data nw : PyVal),
        docusign_webhook db h1 data nw = docusign_webhook db h2 data nw)
    ∧ (∀ (db : List ContractRow) (headers : List (String × String)) (data nw : PyVal),
        (docusign_webhook db headers data nw).1.isOk = false) :=
  ⟨fun _ => rfl, fun _ _ _ _ _ => rfl, docusign_webhook_fst_isOk_false⟩

end Contracts
